import Mathlib

/-!
Verification development for the FitnessTrainerAI agent orchestration engine
(`src/app/agent.py`, class `FitnessCoachAgent`).

The Python code is shallowly embedded as executable Lean definitions:
* the Groq completion call (`_call_llm`) is an oracle parameter
  `LlmOracle`; a raised exception is `Except.error` carrying `str(e)`,
  and Python sampling temperatures are represented in tenths
  (0.7 becomes 7) so no floating point is needed;
* `user_data` is an association list of Python values (`PyVal`), and
  `dict.get(key, default)` is `dget`;
* history messages are records whose fields may be absent, mirroring
  `msg.get('role', 'unknown')` / `msg.get('content', '')`;
* `json.loads` applied to the extracted span is an oracle parameter
  `loads : String → Option Decision` (`none` models both a parse
  exception and output of the wrong shape);
* numeric profile fields are modelled as integers; `f"{x:.1f}"` applied
  to an integer value renders as `toString x ++ ".0"`, exactly the
  Python rendering for integer inputs.
-/

/-- Python slice `xs[-n:]`.  For `n = 0` Python's `xs[-0:]` is `xs[0:]`,
the whole list. -/
def pySliceLast (xs : List α) (n : Nat) : List α :=
  if n = 0 then xs else xs.drop (xs.length - n)

/-- Python slice `s[:n]` on a string (first `n` characters). -/
def pyStrTake (s : String) (n : Nat) : String :=
  ⟨s.data.take n⟩

/-- Python `str.lower()` (per-character, as `String.toLower` does, but
computed structurally over the character list). -/
def pyLower (s : String) : String :=
  ⟨s.data.map Char.toLower⟩

/-- Does `pat` occur at the very start of `l`? -/
def subSeqAt (pat l : List Char) : Bool :=
  match pat, l with
  | [], _ => true
  | _ :: _, [] => false
  | p :: ps, c :: cs => p = c && subSeqAt ps cs

/-- Does `pat` occur contiguously anywhere inside `l`? -/
def listContainsSub (pat : List Char) : List Char → Bool
  | [] => pat.isEmpty
  | c :: cs => subSeqAt pat (c :: cs) || listContainsSub pat cs

/-- Python's `pat in s` substring test. -/
def strContains (s pat : String) : Bool :=
  listContainsSub pat.data s.data

/-- Index of the first occurrence of `c` (Python `str.find`;
`none` models the `-1` result). -/
def findChar : List Char → Char → Option Nat
  | [], _ => none
  | a :: as, c => if a = c then some 0 else (findChar as c).map (· + 1)

/-- Index of the last occurrence of `c` (Python `str.rfind`;
`none` models the `-1` result). -/
def rfindChar : List Char → Char → Option Nat
  | [], _ => none
  | a :: as, c =>
    match rfindChar as c with
    | some i => some (i + 1)
    | none => if a = c then some 0 else none

/-- A Python value stored in the `user_data` dict: `None`, a number
(modelled as an integer) or a string. -/
inductive PyVal where
  | pnone : PyVal
  | pint : Int → PyVal
  | pstr : String → PyVal
deriving DecidableEq, Repr

/-- Python `str(v)` as it appears inside an f-string. -/
def PyVal.render : PyVal → String
  | .pnone => "None"
  | .pint n => toString n
  | .pstr s => s

/-- Python truthiness of a value (`if age else ...`). -/
def PyVal.truthy : PyVal → Bool
  | .pnone => false
  | .pint n => n != 0
  | .pstr s => s != ""

/-- Python `d.get(key, default)` over the `user_data` dict. -/
def dget (d : List (String × PyVal)) (key : String) (default : PyVal) : PyVal :=
  match d.find? (fun p => p.1 == key) with
  | some p => p.2
  | none => default

/-- A conversation-history entry; `role`/`content` may be absent keys,
mirroring `msg.get('role', 'unknown')` and `msg.get('content', '')`. -/
structure Msg where
  role : Option String
  content : Option String
deriving DecidableEq, Repr

def Msg.getRole (m : Msg) : String := m.role.getD "unknown"

def Msg.getContent (m : Msg) : String := m.content.getD ""

/-- One `{"role": ..., "content": ...}` entry sent to the completion API. -/
structure ChatMsg where
  role : String
  content : String
deriving DecidableEq, Repr

/-- The generation capability: `_call_llm`'s try/except re-raises, so the
wrapper is the oracle itself.  The second argument is the sampling
temperature in tenths. -/
def LlmOracle : Type := List ChatMsg → Nat → Except String String

/-- The coordination decision parsed from the LLM's JSON
(`{"tools": ..., "reasoning": ..., "context_aware": ...}`); the field
accesses model `coordination.get("tools", [])` etc. -/
structure Decision where
  tools : List String
  reasoning : String
  context_aware : String
deriving DecidableEq, Repr

/-- The degraded decision returned when JSON extraction or parsing fails
(agent.py line 128). -/
def emptyDecision : Decision :=
  ⟨[], "parsing error", "none"⟩

/-- One entry of `tool_results` in `chat` (agent.py lines 478-487). -/
structure ToolResult where
  tool : String
  result : String
deriving DecidableEq, Repr

/-- The agent's per-turn state: `self.user_data` and
`self.conversation_history`. -/
structure Agent where
  user_data : List (String × PyVal)
  conversation_history : List Msg

/-- `_get_conversation_context` (agent.py lines 47-60): the last
`last_n` messages of any role, each content truncated to its first 100
characters, rendered as `role: content` lines. -/
def getConversationContext (a : Agent) (last_n : Nat) : String :=
  if a.conversation_history = [] then
    "No previous conversation."
  else
    let recent := pySliceLast a.conversation_history last_n
    String.intercalate "\n"
      (recent.map (fun m => Msg.getRole m ++ ": " ++ pyStrTake (Msg.getContent m) 100))

/-- The coordinator system prompt up to the `RECENT CONVERSATION:` slot
(agent.py lines 69-83). -/
def coordPromptHead (a : Agent) : String :=
  "You are a coordination system for a fitness coach.
            Look at what the user is asking and decide which tools to use.

            USER PROFILE:
            - Name: " ++ (dget a.user_data "username" (.pstr "User")).render ++ "
            - Age: " ++ (dget a.user_data "age" (.pstr "unknown")).render ++ "
            - Weight: " ++ (dget a.user_data "weight" (.pstr "unknown")).render ++ " lb
            - Height: " ++ (dget a.user_data "height" (.pstr "unknown")).render ++ " ft
            - Goal: " ++ (dget a.user_data "fitness_goal" (.pstr "not set")).render ++ "
            - Activity Level: " ++ (dget a.user_data "activity_level" (.pstr "not set")).render ++ "
            - Preferences: " ++ (dget a.user_data "preferences" (.pstr "none")).render ++ "
            - Dietary Restrictions: " ++ (dget a.user_data "dietary_restrictions" (.pstr "none")).render ++ "

            RECENT CONVERSATION:
            "

/-- The coordinator system prompt after the conversation context
(agent.py lines 85-106); the JSON template braces are literal characters. -/
def coordPromptTail : String :=
  "

            AVAILABLE TOOLS:
            1. create_workout_plan - Creates personalized workout routines based on goals
            2. create_meal_plan - Creates personalized meal/nutrition plans
            3. analyze_progress - Analyzes fitness journey, identifies patterns and improvements
            4. give_motivation - Provides encouragement and motivational support
            5. calculate_calories - Calculates daily calorie needs and macros based on goals
            6. injury_prevention - Provides injury prevention advice and safe exercise guidance

            COORDINATION RULES:
            - Use context! If they asked about workouts before, consider that.
            - Can use MULTIPLE tools if needed (e.g., workout + motivation)
            - Use analyze_progress if they mention \"progress\", \"doing\", \"results\", \"how am I\"
            - Use motivation if they seem discouraged or ask for encouragement
            - For general questions, use NO tools (tools: [])

            Respond with ONLY valid JSON:
            \x7b
                \"tools\": [\"tool_name1\", \"tool_name2\"],
                \"reasoning\": \"Brief explanation of why these tools\",
                \"context_aware\": \"How conversation history influenced this decision\"
            \x7d
            "

/-- The full coordinator system prompt with the last-3-message excerpt
embedded (agent.py line 67 fixes `last_n=3`). -/
def coordSystemPrompt (a : Agent) : String :=
  coordPromptHead a ++ (getConversationContext a 3 ++ coordPromptTail)

/-- The message list `_coordinator_llm` sends (agent.py lines 108-111). -/
def coordMsgs (a : Agent) (user_message : String) : List ChatMsg :=
  [⟨"system", coordSystemPrompt a⟩, ⟨"user", user_message⟩]

/-- Extraction of the candidate JSON substring in `_coordinator_llm`
(agent.py lines 119-122): `start = response.find('{')`,
`end = response.rfind('}') + 1`, slice `response[start:end]` guarded by
`start != -1 and end > start`.  `none` for `find`/`rfind` models `-1`,
under which the guard is exactly `s ≤ e` on the two found indices. -/
def extractJsonSpan (response : String) : Option String :=
  match findChar response.data '\x7b', rfindChar response.data '\x7d' with
  | some s, some e => if s ≤ e then some ⟨(response.data.drop s).take (e + 1 - s)⟩ else none
  | some _, none => none
  | none, _ => none

/-- The parse half of `_coordinator_llm` (agent.py lines 116-128):
extract the brace span, try `json.loads` (the `loads` oracle; `none`
models a raised parse error), and fall back to the empty decision. -/
def coordinatorParse (loads : String → Option Decision) (response : String) : Decision :=
  match extractJsonSpan response with
  | some json_str =>
    match loads json_str with
    | some d => d
    | none => emptyDecision
  | none => emptyDecision

/-- `_coordinator_llm` (agent.py lines 62-128): the completion call is
outside the try/except, so its failure propagates. -/
def coordinatorLLM (llm : LlmOracle) (loads : String → Option Decision)
    (a : Agent) (user_message : String) : Except String Decision := do
  let response ← llm (coordMsgs a user_message) 2
  pure (coordinatorParse loads response)

/-- One step of the preference-mining loop in `create_workout_plan`
(agent.py lines 139-164); the accumulator is `(likes, dislikes)`. -/
def prefStep (acc : List String × List String) (msg : Msg) : List String × List String :=
  if Msg.getRole msg = "user" then
    let content := pyLower (Msg.getContent msg)
    if strContains content "don\x27t want" || strContains content "don\x27t like" then
      let d := acc.2
      let d := if strContains content "lift" || strContains content "weight" then d ++ ["weightlifting"] else d
      let d := if strContains content "run" then d ++ ["running"] else d
      let d := if strContains content "cardio" then d ++ ["cardio"] else d
      let d := if strContains content "gym" then d ++ ["gym workouts"] else d
      (acc.1, d)
    else if strContains content "like" || strContains content "prefer" || strContains content "want to" then
      let l := acc.1
      let l := if strContains content "run" || strContains content "running" then l ++ ["running"] else l
      let l := if strContains content "lift" || strContains content "weight" then l ++ ["weightlifting"] else l
      let l := if strContains content "cardio" then l ++ ["cardio"] else l
      let l := if strContains content "yoga" then l ++ ["yoga"] else l
      let l := if strContains content "swim" then l ++ ["swimming"] else l
      (l, acc.2)
    else acc
  else acc

/-- The preference-mining pass of `create_workout_plan` over
`self.conversation_history[-10:]`, returning `(likes, dislikes)`. -/
def mineWorkoutPrefs (history : List Msg) : List String × List String :=
  (pySliceLast history 10).foldl prefStep ([], [])

/-- Python `set(...)` over a list of strings, modelled as first-occurrence
deduplication (CPython set iteration order is unspecified). -/
def pySetList (l : List String) : List String :=
  l.foldl (fun acc x => if acc.contains x then acc else acc ++ [x]) []

/-- The workout-plan system prompt (agent.py lines 169-196). -/
def workoutSystemPrompt (a : Agent) (likes_str dislikes_str : String) : String :=
  "You are an expert fitness trainer creating personalized workout plans.
            USER PROFILE:
            - Age: " ++ (dget a.user_data "age" (.pstr "unknown")).render ++ "
            - Weight: " ++ (dget a.user_data "weight" (.pstr "unknown")).render ++ " lb
            - Height: " ++ (dget a.user_data "height" (.pstr "unknown")).render ++ " ft
            - Goal: " ++ (dget a.user_data "fitness_goal" (.pstr "general fitness")).render ++ "
            - Activity Level: " ++ (dget a.user_data "activity_level" (.pstr "moderate")).render ++ "
            - Stated Preferences: " ++ (dget a.user_data "preferences" (.pstr "none")).render ++ "

            CONVERSATION MEMORY:
            - User LIKES: " ++ likes_str ++ "
            - User DISLIKES: " ++ dislikes_str ++ "

            CRITICAL RULES:
            1. NEVER include exercises the user dislikes
            2. If they dislike weightlifting, use bodyweight exercises instead
            3. If they dislike running, use other cardio like cycling, rowing, or walking
            4. Prioritize activities they like
            5. Respect their preferences completely

            Create a detailed, personalized workout plan including:
            1. Workout name that reflects their goal
            2. Specific exercises with sets, reps, rest periods
            3. Duration (in minutes)
            4. Safety tips and modifications
            5. Why this plan matches their goal and preferences

            Format as a clear, structured plan."

/-- `create_workout_plan` (agent.py lines 130-203). -/
def createWorkoutPlan (llm : LlmOracle) (a : Agent) (user_message : String) : Except String String :=
  let mined := mineWorkoutPrefs a.conversation_history
  let likes := mined.1
  let dislikes := mined.2
  let likes_str := if likes ≠ [] then String.intercalate ", " (pySetList likes) else "none detected"
  let dislikes_str := if dislikes ≠ [] then String.intercalate ", " (pySetList dislikes) else "none detected"
  llm [⟨"system", workoutSystemPrompt a likes_str dislikes_str⟩, ⟨"user", user_message⟩] 7

/-- The meal-plan system prompt (agent.py lines 207-224). -/
def mealSystemPrompt (a : Agent) : String :=
  "You are a nutritionist creating meal plans.
            USER PROFILE:
            - Age: " ++ (dget a.user_data "age" (.pstr "unknown")).render ++ "
            - Weight: " ++ (dget a.user_data "weight" (.pstr "unknown")).render ++ " lb
            - Goal: " ++ (dget a.user_data "fitness_goal" (.pstr "general fitness")).render ++ "
            - Activity Level: " ++ (dget a.user_data "activity_level" (.pstr "moderate")).render ++ "
            - Dietary Restrictions: " ++ (dget a.user_data "dietary_restrictions" (.pstr "none")).render ++ "

            CRITICAL: Respect ALL dietary restrictions! If vegetarian, NO meat. If allergies, AVOID those foods.

            Create a detailed meal plan including:
            1. All meals: breakfast, lunch, dinner, snacks
            2. Calorie estimates per meal and total
            3. Macro breakdown (protein/carbs/fats in grams)
            4. Quick preparation tips
            5. Why this supports their fitness goal

            Be specific with portions and ingredients."

/-- `create_meal_plan` (agent.py lines 205-231). -/
def createMealPlan (llm : LlmOracle) (a : Agent) (user_message : String) : Except String String :=
  llm [⟨"system", mealSystemPrompt a⟩, ⟨"user", user_message⟩] 7

/-- One step of the progress scan in `analyze_progress` (agent.py lines
242-250); the accumulator is `(workout_mentions, progress_clues)`. -/
def progressStep (acc : Nat × List String) (msg : Msg) : Nat × List String :=
  if Msg.getRole msg = "user" then
    let content := pyLower (Msg.getContent msg)
    let n := if ["workout", "exercise", "ran", "lifted", "trained"].any (fun w => strContains content w) then acc.1 + 1 else acc.1
    let clues := if strContains content "tired" || strContains content "sore" then acc.2 ++ ["User mentioned physical fatigue (good sign of activity)"] else acc.2
    let clues := if strContains content "easier" || strContains content "better" then clues ++ ["User noted improvement"] else clues
    (n, clues)
  else acc

/-- The progress scan of `analyze_progress`: the whole history, not a
window (agent.py line 242). -/
def mineProgress (history : List Msg) : Nat × List String :=
  history.foldl progressStep (0, [])

/-- `progress_summary` (agent.py line 252). -/
def progressSummary (history : List Msg) : String :=
  let p := mineProgress history
  toString p.1 ++ " workout mentions; " ++ String.intercalate "; " (p.2.take 3)

/-- The progress-analysis system prompt (agent.py lines 254-272). -/
def progressSystemPrompt (a : Agent) : String :=
  "You are a fitness analyst providing insightful progress analysis.
            USER PROFILE:
            - Goal: " ++ (dget a.user_data "fitness_goal" (.pstr "general fitness")).render ++ "
            - Activity Level: " ++ (dget a.user_data "activity_level" (.pstr "moderate")).render ++ "
            - Started: " ++ (dget a.user_data "created_at" (.pstr "recently")).render ++ "

            CONVERSATION ANALYSIS:
            " ++ progressSummary a.conversation_history ++ "

            Total conversation messages: " ++ toString a.conversation_history.length ++ "

            Provide a thoughtful analysis including:
            1. What progress indicators you see
            2. Positive patterns in their engagement
            3. Specific areas for improvement
            4. Actionable next steps
            5. Encouragement based on their actual activity

            Be honest but motivating. Use data from the conversation to be specific."

/-- `analyze_progress` (agent.py lines 233-279). -/
def analyzeProgress (llm : LlmOracle) (a : Agent) (user_message : String) : Except String String :=
  llm [⟨"system", progressSystemPrompt a⟩, ⟨"user", user_message⟩] 7

/-- The sentiment scan of `give_motivation` (agent.py lines 286-294):
user contents among the last 5 messages, joined and lower-cased. -/
def mineSentiment (history : List Msg) : String :=
  let recent_user_messages :=
    (pySliceLast history 5).filterMap (fun m => if Msg.getRole m = "user" then some (Msg.getContent m) else none)
  let recent_text := pyLower (String.intercalate " " recent_user_messages)
  if ["tired", "hard", "difficult", "struggle", "cant"].any (fun w => strContains recent_text w) then
    "struggling, needs encouragement"
  else if ["good", "great", "better", "progress"].any (fun w => strContains recent_text w) then
    "positive, reinforce success"
  else
    "neutral"

/-- The motivation system prompt (agent.py lines 296-309). -/
def motivationSystemPrompt (a : Agent) (emotional_context : String) : String :=
  "You are a supportive fitness coach providing motivation.
            USER PROFILE:
            - Goal: " ++ (dget a.user_data "fitness_goal" (.pstr "general fitness")).render ++ "
            - Activity Level: " ++ (dget a.user_data "activity_level" (.pstr "moderate")).render ++ "

            EMOTIONAL CONTEXT: " ++ emotional_context ++ "

            Give them real motivation that:
            1. Acknowledges their specific goal
            2. Responds to how they\x27re feeling
            3. Offers practical encouragement
            4. Gives them a specific next step

            Don\x27t be generic! Make it personal."

/-- `give_motivation` (agent.py lines 281-317); temperature 0.8. -/
def giveMotivation (llm : LlmOracle) (a : Agent) (user_message : String) : Except String String :=
  let emotional_context := mineSentiment a.conversation_history
  llm [⟨"system", motivationSystemPrompt a emotional_context⟩, ⟨"user", user_message⟩] 8

/-- Python `f"{v * 12:.1f}"` on a profile value (agent.py line 332).
For an integer the result is `toString (v * 12) ++ ".0"`.  `None * 12`
raises a TypeError; a string repeats under `*` and then raises a
ValueError in the format step.  The error strings are `str(e)`. -/
def pyTimes12Fmt1 : PyVal → Except String String
  | .pint n => Except.ok (toString (n * 12) ++ ".0")
  | .pnone => Except.error "unsupported operand type(s) for *: \x27NoneType\x27 and \x27int\x27"
  | .pstr _ => Except.error "Unknown format code \x27f\x27 for object of type \x27str\x27"

/-- The calorie-calculation system prompt up to the opening parenthesis
of the inches figure (agent.py lines 328-332). -/
def caloriePromptPre (a : Agent) : String :=
  "You are a nutritionist calculating calorie needs.
            USER PROFILE:
            - Age: " ++ (if (dget a.user_data "age" (.pint 0)).truthy then (dget a.user_data "age" (.pint 0)).render else "unknown") ++ "
            - Weight: " ++ (dget a.user_data "weight" (.pint 0)).render ++ " lb
            - Height: " ++ (dget a.user_data "height" (.pint 0)).render ++ " ft ("

/-- The calorie-calculation system prompt after the inches figure
(agent.py lines 333-370). -/
def calorieRest (a : Agent) : String :=
  "
            - Gender: assumed male (adjust if needed)
            - Fitness Goal: " ++ (dget a.user_data "fitness_goal" (.pstr "not specified")).render ++ "
            - Activity Level: " ++ (dget a.user_data "activity_level" (.pstr "moderate")).render ++ "

            TASK: Calculate personalized daily calorie and macronutrient needs.

            CALCULATION STEPS:
            1. Calculate BMR using Mifflin-St Jeor:
                - Men: (10 * weight_kg) + (6.25 * height_cm) - (5 * age) + 5
                - Women: (10 * weight_kg) + (6.25 * height_cm) - (5 * age) - 161

            2. Calculate TDEE (BMR * activity multiplier):
                - Sedentary: 1.2
                - Light: 1.375
                - Moderate: 1.55
                - Active: 1.725
                - Very Active: 1.9

            3. Adjust for goal:
                - Lose weight: -500 cal (1 lb/week) or -250 cal (0.5 lb/week)
                - Gain muscle: +250-500 cal
                - Maintain: TDEE

            4. Calculate macros:
                - Protein: 0.8-1.2g per lb bodyweight (higher for muscle gain/fat loss)
                - Fats: 25-30% of total calories
                - Carbs: Remaining calories

            PROVIDE:
            1. BMR calculation with formula shown
            2. TDEE with activity multiplier
            3. Target daily calories for their goal
            4. Macro breakdown (grams and percentages)
            5. Meal timing suggestions
            6. Weekly expected progress (weight change)
            7. Tips for tracking and adjusting

            Show your work! Include the actual calculations so they understand."

/-- The calorie-calculation system prompt (agent.py lines 324-370); it
can only fail in the `{height_ft * 12:.1f}` interpolation.  The local
variables `weight_lb`, `height_ft`, `age` mirror agent.py lines
324-326; `caloriePromptPre`/`calorieRest` read the same values. -/
def calorieSystemPrompt (a : Agent) : Except String String := do
  let height_ft := dget a.user_data "height" (.pint 0)
  let inches ← pyTimes12Fmt1 height_ft
  pure (caloriePromptPre a ++ (inches ++ (" inches)" ++ calorieRest a)))

/-- `calculate_calories` (agent.py lines 319-378); temperature 0.3. -/
def calculateCalories (llm : LlmOracle) (a : Agent) (user_message : String) : Except String String := do
  let system_prompt ← calorieSystemPrompt a
  llm [⟨"system", system_prompt⟩, ⟨"user", user_message⟩] 3

/-- One step of the exercise/pain scan in `injury_prevention` (agent.py
lines 389-403); the accumulator is `(mentioned_exercises, pain_indicators)`. -/
def injuryStep (acc : List String × List String) (msg : Msg) : List String × List String :=
  if Msg.getRole msg = "user" then
    let content := pyLower (Msg.getContent msg)
    let mentioned := acc.1 ++ (["squat", "deadlift", "bench", "run", "lunge", "press", "curl", "row"].filter (fun e => strContains content e))
    let indicators := acc.2 ++ ((["pain", "hurt", "sore", "injury", "strain", "ache"].filter (fun w => strContains content w)).map (fun w => "mentioned \x27" ++ w ++ "\x27"))
    (mentioned, indicators)
  else acc

/-- The exercise/pain scan of `injury_prevention` over
`self.conversation_history[-10:]`. -/
def mineInjury (history : List Msg) : List String × List String :=
  (pySliceLast history 10).foldl injuryStep ([], [])

/-- The injury-prevention system prompt (agent.py lines 408-451). -/
def injurySystemPrompt (a : Agent) (exercise_context pain_context : String) : String :=
  "You are a certified sports medicine specialist and injury prevention expert.

        USER PROFILE:
        - Age: " ++ (dget a.user_data "age" (.pstr "unknown")).render ++ "
        - Weight: " ++ (dget a.user_data "weight" (.pstr "unknown")).render ++ " lb
        - Fitness Goal: " ++ (dget a.user_data "fitness_goal" (.pstr "general fitness")).render ++ "
        - Activity Level: " ++ (dget a.user_data "activity_level" (.pstr "moderate")).render ++ "

        CONVERSATION CONTEXT:
        - Exercises mentioned: " ++ exercise_context ++ "
        - Pain indicators: " ++ pain_context ++ "

        CRITICAL: Provide practical, science-based injury prevention advice.

        PROVIDE:
        1. Specific risks for their goal/activity level
            - Age-related considerations
            - Common injuries for their activities

        2. Prevention strategies:
            - Warm-up protocols (specific exercises, duration)
            - Proper form tips for mentioned exercises
            - Progression guidelines (don\x27t increase too fast)

        3. Recovery essentials:
            - Rest day recommendations
            - Sleep importance
            - Active recovery ideas

        4. Warning signs:
            - When to stop exercising
            - Difference between muscle soreness and injury
            - When to see a doctor

        5. Specific form cues:
            - If they mentioned exercises, give detailed form tips
            - Common mistakes to avoid

        Be specific and actionable. This could prevent a real injury!

        IMPORTANT DISCLAIMERS:
        - If they report pain, advise consulting a healthcare professional
        - Don\x27t diagnose injuries - recommend professional evaluation
        - Emphasize proper progression over quick results"

/-- `injury_prevention` (agent.py lines 380-458); temperature 0.5. -/
def injuryPrevention (llm : LlmOracle) (a : Agent) (user_message : String) : Except String String :=
  let mined := mineInjury a.conversation_history
  let exercise_context := if mined.1 ≠ [] then String.intercalate ", " (pySetList mined.1) else "none mentioned yet"
  let pain_context := if mined.2 ≠ [] then String.intercalate "; " (pySetList mined.2) else "none reported"
  llm [⟨"system", injurySystemPrompt a exercise_context pain_context⟩, ⟨"user", user_message⟩] 5

/-- `self.tools` (agent.py lines 25-32): the fixed six-entry registry;
`name in self.tools` is the `isSome` of this lookup. -/
def toolsLookup (llm : LlmOracle) (a : Agent) (name : String) : Option (String → Except String String) :=
  if name = "create_workout_plan" then some (createWorkoutPlan llm a)
  else if name = "create_meal_plan" then some (createMealPlan llm a)
  else if name = "analyze_progress" then some (analyzeProgress llm a)
  else if name = "give_motivation" then some (giveMotivation llm a)
  else if name = "calculate_calories" then some (calculateCalories llm a)
  else if name = "injury_prevention" then some (injuryPrevention llm a)
  else none

/-- The six registered tool identifiers, as a boolean membership test. -/
def isRegisteredTool (name : String) : Bool :=
  name == "create_workout_plan" || name == "create_meal_plan" ||
  name == "analyze_progress" || name == "give_motivation" ||
  name == "calculate_calories" || name == "injury_prevention"

/-- Step 2 of `chat` (agent.py lines 473-487): run each selected tool in
order, skipping identifiers not in the registry; a handler exception is
recorded as an `Error: ...` outcome instead of aborting the loop. -/
def dispatchTools (llm : LlmOracle) (a : Agent) (tools_to_use : List String)
    (user_message : String) : List ToolResult :=
  tools_to_use.filterMap (fun tool_name =>
    match toolsLookup llm a tool_name with
    | some handler =>
      match handler user_message with
      | Except.ok result => some ⟨tool_name, result⟩
      | Except.error e => some ⟨tool_name, "Error: " ++ e⟩
    | none => none)

/-- `tool_outputs` (agent.py line 491). -/
def toolOutputsText (tool_results : List ToolResult) : String :=
  String.intercalate "\n\n" (tool_results.map (fun tr => "=== " ++ tr.tool ++ " ===\n" ++ tr.result))

/-- The synthesis prompt (agent.py lines 494-509). -/
def synthesisPrompt (a : Agent) (user_message : String) (tool_results : List ToolResult) : String :=
  "You are a friendly fitness coach. Combine the info below into a natural response.
                USER: " ++ (dget a.user_data "username" (.pstr "User")).render ++ "
                THEIR GOAL: " ++ (dget a.user_data "fitness_goal" (.pstr "general fitness")).render ++ "

                They asked: \"" ++ user_message ++ "\"

                Tool outputs:
                " ++ toolOutputsText tool_results ++ "

                Write a natural response that:
                1. Directly answers their question
                2. Uses the tool outputs but sounds human
                3. Feels personal, not robotic
                4. Ends with a question or next step

                Be warm and encouraging!"

/-- The direct-conversation system prompt before the context slot
(agent.py lines 518-529). -/
def directPromptHead (a : Agent) : String :=
  "You are a friendly fitness coach having a conversation.
                USER PROFILE:
                - Name: " ++ (dget a.user_data "username" (.pstr "User")).render ++ "
                - Age: " ++ (dget a.user_data "age" (.pstr "unknown")).render ++ "
                - Weight: " ++ (dget a.user_data "weight" (.pstr "unknown")).render ++ " lb
                - Height: " ++ (dget a.user_data "height" (.pstr "unknown")).render ++ " ft
                - Goal: " ++ (dget a.user_data "fitness_goal" (.pstr "not set yet")).render ++ "
                - Activity Level: " ++ (dget a.user_data "activity_level" (.pstr "not set yet")).render ++ "
                - Preferences: " ++ (dget a.user_data "preferences" (.pstr "none specified")).render ++ "
                - Dietary Restrictions: " ++ (dget a.user_data "dietary_restrictions" (.pstr "none")).render ++ "

                RECENT CONVERSATION:
                "

/-- The direct-conversation system prompt after the context slot
(agent.py line 532). -/
def directPromptTail : String :=
  "

                Chat naturally! Remember what you\x27ve talked about before. If they ask for BMI or calories and you have their data, do the math for them."

/-- The full direct-conversation system prompt with the last-5-message
excerpt embedded (agent.py line 516 fixes `last_n=5`). -/
def directSystemPrompt (a : Agent) : String :=
  directPromptHead a ++ (getConversationContext a 5 ++ directPromptTail)

/-- The message list the direct conversational path sends
(agent.py lines 534-537). -/
def directMsgs (a : Agent) (user_message : String) : List ChatMsg :=
  [⟨"system", directSystemPrompt a⟩, ⟨"user", user_message⟩]

/-- `chat` (agent.py lines 460-540): coordinate, dispatch, synthesize.
The coordination call's failure propagates; tool failures are absorbed
into the outcome list; if no tool produced an outcome the direct
conversational path replies. -/
def chat (llm : LlmOracle) (loads : String → Option Decision)
    (a : Agent) (user_message : String) : Except String String := do
  let coordination ← coordinatorLLM llm loads a user_message
  let tools_to_use := coordination.tools
  let tool_results := dispatchTools llm a tools_to_use user_message
  if tool_results ≠ [] then
    llm [⟨"user", synthesisPrompt a user_message tool_results⟩] 7
  else
    llm (directMsgs a user_message) 7

/-- Modelled from the spec: "extracts the first balanced `{...}` span"
— scan from the first opening brace, tracking nesting depth, and stop at
the brace that closes it.  This is the claimed behaviour, to be compared
with `extractJsonSpan` taken from the source. -/
def balancedScan : List Char → Nat → List Char → Option (List Char)
  | [], _, _ => none
  | c :: cs, depth, acc =>
    if c = '\x7d' then
      if depth = 1 then some (acc ++ [c]) else balancedScan cs (depth - 1) (acc ++ [c])
    else if c = '\x7b' then balancedScan cs (depth + 1) (acc ++ [c])
    else balancedScan cs depth (acc ++ [c])

/-- Modelled from the spec: the first balanced `{...}` span of a text
(the span from the first opening brace to its matching closing brace). -/
def specFirstBalancedSpan (response : String) : Option String :=
  match findChar response.data '\x7b' with
  | some i => (balancedScan (response.data.drop i) 0 []).map (fun l => ⟨l⟩)
  | none => none

/-- Modelled from the spec: "the last `window` user-authored messages" —
the claimed mining window for C7, to be compared with the source's
any-role window. -/
def specLastUserMessages (history : List Msg) (n : Nat) : List Msg :=
  pySliceLast (history.filter (fun m => Msg.getRole m == "user")) n

/-- An always-failing generation capability (transport error). -/
def llmDown : LlmOracle := fun _ _ => Except.error "GenerationUnavailable"

/-- A generation capability that fails with a timeout message. -/
def llmTimeout : LlmOracle := fun _ _ => Except.error "Request timed out."

/-- An always-succeeding generation capability. -/
def llmOkay : LlmOracle := fun _ _ => Except.ok "fine"

/-- A `json.loads` oracle that always fails. -/
def loadsNone : String → Option Decision := fun _ => none

/-- An agent with an empty profile dict and empty history. -/
def agentBlank : Agent := ⟨[], []⟩

/-- The history of the C2 scenario: one user message
"I don't like running but I love lifting weights". -/
def historyC2 : List Msg :=
  [⟨some "user", some "I don\x27t like running but I love lifting weights"⟩]

/-- The profile `get_user_data` builds for a user with an empty profile
row: every numeric field is present with value `None`. -/
def profileNullHeight : List (String × PyVal) :=
  [("username", PyVal.pstr "sam"), ("age", PyVal.pnone), ("weight", PyVal.pnone),
   ("height", PyVal.pnone), ("fitness_goal", PyVal.pstr "general fitness"),
   ("activity_level", PyVal.pstr "moderate"),
   ("dietary_restrictions", PyVal.pstr "none"), ("preferences", PyVal.pstr "none")]

/-- An oracle that answers the low-temperature coordination call with
prose containing no JSON and every other call with a chat reply. -/
def llmC4 : LlmOracle := fun _ t =>
  if t = 2 then Except.ok "I cannot produce structured output, sorry."
  else Except.ok "Happy to chat about fitness!"

/-- An oracle keyed on temperature: the motivation call (0.8) raises,
the coordination call (0.2) returns a minimal JSON object, everything
else succeeds. -/
def llmC5 : LlmOracle := fun _ t =>
  if t = 8 then Except.error "boom"
  else if t = 2 then Except.ok "\x7b\x7d"
  else Except.ok "fine"

/-- A `json.loads` oracle producing a two-tool decision. -/
def loadsC5 : String → Option Decision := fun _ =>
  some ⟨["give_motivation", "create_meal_plan"], "needs support and food", "none"⟩

/-- An assistant-authored filler message. -/
def assistantFiller : Msg := ⟨some "assistant", some "Here is a suggestion."⟩

/-- A history whose only user message ("i like running") is pushed out
of the 10-message window by ten assistant messages. -/
def historyC7 : List Msg :=
  ⟨some "user", some "i like running"⟩ :: List.replicate 10 assistantFiller

/-- A history whose only user message ("i did a workout today") sits
just outside the 10-message window. -/
def historyC7b : List Msg :=
  ⟨some "user", some "i did a workout today"⟩ :: List.replicate 10 assistantFiller

/-- A fully-populated profile whose height (in feet) is the integer `n`. -/
def profileWithHeight (n : Int) : List (String × PyVal) :=
  [("username", PyVal.pstr "sam"), ("age", PyVal.pint 30), ("weight", PyVal.pint 150),
   ("height", PyVal.pint n), ("fitness_goal", PyVal.pstr "lose_weight"),
   ("activity_level", PyVal.pstr "moderate"),
   ("dietary_restrictions", PyVal.pstr "none"), ("preferences", PyVal.pstr "none")]

/-- The registry lookup succeeds exactly on the six registered names. -/
theorem toolsLookup_isSome (llm : LlmOracle) (a : Agent) (name : String) :
    (toolsLookup llm a name).isSome = isRegisteredTool name := by
  simp only [toolsLookup, isRegisteredTool]
  split_ifs with h1 h2 h3 h4 h5 h6 <;>
    simp_all [Option.isSome, beq_iff_eq]

/-- `findChar` over an append when the left part has no occurrence. -/
theorem findChar_append_of_not_mem (l r : List Char) (c : Char) (h : c ∉ l) :
    findChar (l ++ r) c = (findChar r c).map (· + l.length) := by
  induction l with
  | nil =>
    cases hr : findChar r c <;> simp [hr]
  | cons a as ih =>
    have ha : ¬ a = c := fun hac => h (hac ▸ List.mem_cons_self a as)
    have has : c ∉ as := fun hm => h (List.mem_cons_of_mem a hm)
    cases hr : findChar r c <;>
      simp [findChar, ha, ih has, hr, Nat.add_assoc, Nat.add_comm 1 as.length]

/-- `rfindChar` over an append: a hit in the right part wins. -/
theorem rfindChar_append (l r : List Char) (c : Char) :
    rfindChar (l ++ r) c =
      match rfindChar r c with
      | some i => some (l.length + i)
      | none => rfindChar l c := by
  induction l with
  | nil => cases hr : rfindChar r c <;> simp [hr, rfindChar]
  | cons a as ih =>
    cases hr : rfindChar r c with
    | none =>
      simp only [hr] at ih
      simp only [List.cons_append, rfindChar, List.append_eq, ih, hr]
    | some i =>
      simp only [hr] at ih
      simp only [List.cons_append, rfindChar, List.append_eq, ih, hr, List.length_cons]
      simp [Nat.add_right_comm]

/-- `rfindChar` misses when the character does not occur. -/
theorem rfindChar_eq_none_of_not_mem (l : List Char) (c : Char) (h : c ∉ l) :
    rfindChar l c = none := by
  induction l with
  | nil => rfl
  | cons a as ih =>
    have ha : ¬ a = c := fun hac => h (hac ▸ List.mem_cons_self a as)
    have has : c ∉ as := fun hm => h (List.mem_cons_of_mem a hm)
    simp [rfindChar, ih has, ha]

/-- A pattern matches at the start of any extension of itself. -/
theorem subSeqAt_append_self (pat r : List Char) : subSeqAt pat (pat ++ r) = true := by
  induction pat with
  | nil => rfl
  | cons p ps ih => simp [subSeqAt, ih]

/-- The empty pattern is contained everywhere. -/
theorem listContainsSub_nil (l : List Char) : listContainsSub [] l = true := by
  cases l <;> simp [listContainsSub, subSeqAt, List.isEmpty]

/-- A contiguous middle segment is found by `listContainsSub`. -/
theorem listContainsSub_middle (p pat q : List Char) :
    listContainsSub pat (p ++ (pat ++ q)) = true := by
  induction p with
  | nil =>
    cases pat with
    | nil => simpa using listContainsSub_nil q
    | cons c cs =>
      simp only [List.nil_append, List.cons_append, listContainsSub]
      have := subSeqAt_append_self (c :: cs) q
      simp only [List.cons_append] at this
      simp [this]
  | cons x xs ih => simp [listContainsSub, ih]

/-- A contiguous middle segment is found by Python's `in` test. -/
theorem strContains_middle (p pat q : String) :
    strContains (p ++ (pat ++ q)) pat = true := by
  unfold strContains
  simp only [String.data_append]
  exact listContainsSub_middle p.data pat.data q.data

/-- C1 counterexample: when the coordination completion call raises, the
exception propagates out of `chat` to the caller — the turn does NOT
degrade to the empty decision, contradicting the claim that an exception
from the coordination LLM call never propagates. -/
theorem c1_counterexample :
    chat llmDown loadsNone agentBlank "hello" = Except.error "GenerationUnavailable" := rfl

/-- C1 (amended): only a non-raising response that fails to parse
degrades to the empty decision; if the coordination completion call
itself raises, the exception propagates unchanged to the caller of
`chat` and the turn fails. -/
theorem c1_coordination_error_propagates (llm : LlmOracle)
    (loads : String → Option Decision) (a : Agent) (user_message e : String)
    (h : llm (coordMsgs a user_message) 2 = Except.error e) :
    chat llm loads a user_message = Except.error e := by
  unfold chat coordinatorLLM
  rw [h]
  rfl

/-- Witness for `c1_coordination_error_propagates` at a concrete failing
oracle. -/
theorem c1_witness :
    chat llmTimeout loadsNone agentBlank "plan my week" = Except.error "Request timed out." :=
  c1_coordination_error_propagates llmTimeout loadsNone agentBlank "plan my week"
    "Request timed out." rfl

/-- C2 counterexample: for the scenario message the mined likes are
empty ("lifting weights" yields NO like tag) and "weightlifting" lands
in the dislikes — contradicting the claimed
`dislikes = {running}, likes = {weightlifting}`. -/
theorem c2_counterexample :
    (mineWorkoutPrefs historyC2).1 = [] ∧
    "weightlifting" ∈ (mineWorkoutPrefs historyC2).2 := by decide

/-- C2 (amended): a message containing the negation phrase "don't like"
routes EVERY matched activity keyword to the dislikes — here both
`lift`/`weight` (→ weightlifting) and `run` (→ running) — and, because
the positive branch is an `elif`, contributes no like tags at all:
the mining result is `likes = ∅`, `dislikes = {weightlifting, running}`. -/
theorem c2_negation_shadows_whole_message :
    mineWorkoutPrefs historyC2 = ([], ["weightlifting", "running"]) := by decide

/-- C9 (code bug): with a present-but-null height — exactly what the
UI's `get_user_data` passes for a never-filled profile — the
`{height_ft * 12:.1f}` interpolation in `calculate_calories` raises a
TypeError before any generation call is made, even though the
generation capability (here `llmOkay`) never fails.  This contradicts
the claim (and the code's own stated intent of defaulting missing data
"so the agent doesn't crash") that a handler raises only if its
generation call raises. -/
theorem c9_null_height_raises :
    calculateCalories llmOkay ⟨profileNullHeight, []⟩ "How many calories should I eat?"
      = Except.error "unsupported operand type(s) for *: \x27NoneType\x27 and \x27int\x27" ∧
    (∀ ms t, llmOkay ms t = Except.ok "fine") :=
  ⟨rfl, fun _ _ => rfl⟩

/-- C3 counterexample: a parsed decision that lists the same registered
tool twice makes the Dispatcher invoke it twice — duplicates are NOT
removed, contradicting the claimed duplicate-free invocation list. -/
theorem c3_counterexample :
    (dispatchTools llmOkay agentBlank ["give_motivation", "give_motivation"] "hi").map ToolResult.tool
      = ["give_motivation", "give_motivation"] ∧
    ["give_motivation", "give_motivation"] ≠ ["give_motivation"] := by
  constructor
  · rfl
  · decide

/-- C3 (amended): the invoked tool list equals the parsed tool list
restricted to the fixed six-entry registry, preserving order and
multiplicity (duplicates are retained and run again); in particular an
unknown identifier is never executed. -/
theorem c3_registry_filter (llm : LlmOracle) (a : Agent) (user_message : String)
    (tools_to_use : List String) :
    (dispatchTools llm a tools_to_use user_message).map ToolResult.tool
      = tools_to_use.filter (fun t => isRegisteredTool t) := by
  induction tools_to_use with
  | nil => rfl
  | cons t ts ih =>
    simp only [dispatchTools, List.filterMap_cons] at ih ⊢
    cases hl : toolsLookup llm a t with
    | none =>
      have hreg : isRegisteredTool t = false := by
        have h := toolsLookup_isSome llm a t
        rw [hl] at h
        simpa using h.symm
      simp [hreg, ih]
    | some handler =>
      have hreg : isRegisteredTool t = true := by
        have h := toolsLookup_isSome llm a t
        rw [hl] at h
        simpa using h.symm
      cases hr : handler user_message <;> simp [hreg, hr, ih]

/-- C4 (confirmed): whenever the coordination response contains no
parseable JSON object — the brace-span extraction fails, or `json.loads`
on the extracted span fails — the Coordinator returns exactly the empty
decision `{tools: [], reasoning: "parsing error", context_aware: "none"}`,
and `chat` answers through the direct conversational path with the
generation's (non-empty) reply. -/
theorem c4_no_json_degrades_and_replies (llm : LlmOracle)
    (loads : String → Option Decision) (a : Agent) (user_message response reply : String)
    (hc : llm (coordMsgs a user_message) 2 = Except.ok response)
    (hp : ∀ s, extractJsonSpan response = some s → loads s = none)
    (hd : llm (directMsgs a user_message) 7 = Except.ok reply)
    (hne : reply ≠ "") :
    coordinatorLLM llm loads a user_message = Except.ok emptyDecision ∧
    chat llm loads a user_message = Except.ok reply ∧ reply ≠ "" := by
  have hparse : coordinatorParse loads response = emptyDecision := by
    unfold coordinatorParse
    cases he : extractJsonSpan response with
    | none => rfl
    | some str =>
      show (match loads str with | some d => d | none => emptyDecision) = emptyDecision
      rw [hp str he]
  have hcoord : coordinatorLLM llm loads a user_message = Except.ok emptyDecision := by
    unfold coordinatorLLM
    rw [hc]
    show Except.ok (coordinatorParse loads response) = Except.ok emptyDecision
    rw [hparse]
  refine ⟨hcoord, ?_, hne⟩
  unfold chat
  rw [hcoord]
  exact hd

/-- Witness for `c4_no_json_degrades_and_replies` at a concrete oracle
whose coordination answer has no braces. -/
theorem c4_witness :
    coordinatorLLM llmC4 loadsNone agentBlank "hey" = Except.ok emptyDecision ∧
    chat llmC4 loadsNone agentBlank "hey" = Except.ok "Happy to chat about fitness!" ∧
    "Happy to chat about fitness!" ≠ "" :=
  c4_no_json_degrades_and_replies llmC4 loadsNone agentBlank "hey"
    "I cannot produce structured output, sorry." "Happy to chat about fitness!"
    rfl (fun _ _ => rfl) rfl (by decide)

/-- `chat` after a successful coordination: dispatch the decision's
tools, then synthesize or fall back to the direct path. -/
theorem chat_unfold (llm : LlmOracle) (loads : String → Option Decision)
    (a : Agent) (user_message : String) (d : Decision)
    (h : coordinatorLLM llm loads a user_message = Except.ok d) :
    chat llm loads a user_message =
      if dispatchTools llm a d.tools user_message ≠ [] then
        llm [⟨"user", synthesisPrompt a user_message (dispatchTools llm a d.tools user_message)⟩] 7
      else
        llm (directMsgs a user_message) 7 := by
  unfold chat
  rw [h]
  rfl

/-- C5 (confirmed): when exactly one of two selected registered tools'
handlers raises, the outcome list still has both entries in selection
order, the failing entry's text is `"Error: " ++ str(e)`, the other
entry carries the handler's generated text, and `chat` proceeds to the
synthesis call over exactly that two-entry list. -/
theorem c5_partial_failure_isolated (llm : LlmOracle)
    (loads : String → Option Decision) (a : Agent)
    (user_message t1 t2 e r rs ca : String)
    (f1 f2 : String → Except String String)
    (h1 : toolsLookup llm a t1 = some f1)
    (h2 : toolsLookup llm a t2 = some f2)
    (hf1 : f1 user_message = Except.error e)
    (hf2 : f2 user_message = Except.ok r)
    (hcoord : coordinatorLLM llm loads a user_message = Except.ok ⟨[t1, t2], rs, ca⟩) :
    dispatchTools llm a [t1, t2] user_message = [⟨t1, "Error: " ++ e⟩, ⟨t2, r⟩] ∧
    chat llm loads a user_message
      = llm [⟨"user", synthesisPrompt a user_message [⟨t1, "Error: " ++ e⟩, ⟨t2, r⟩]⟩] 7 := by
  have hdisp : dispatchTools llm a [t1, t2] user_message = [⟨t1, "Error: " ++ e⟩, ⟨t2, r⟩] := by
    simp only [dispatchTools, List.filterMap_cons, List.filterMap_nil, h1, h2, hf1, hf2]
  refine ⟨hdisp, ?_⟩
  rw [chat_unfold llm loads a user_message ⟨[t1, t2], rs, ca⟩ hcoord]
  simp only [hdisp]
  simp

/-- Witness for `c5_partial_failure_isolated`: the motivation handler
raises, the meal-plan handler succeeds. -/
theorem c5_witness :
    dispatchTools llmC5 agentBlank ["give_motivation", "create_meal_plan"] "hi"
      = [⟨"give_motivation", "Error: " ++ "boom"⟩, ⟨"create_meal_plan", "fine"⟩] ∧
    chat llmC5 loadsC5 agentBlank "hi"
      = llmC5 [⟨"user", synthesisPrompt agentBlank "hi"
          [⟨"give_motivation", "Error: " ++ "boom"⟩, ⟨"create_meal_plan", "fine"⟩]⟩] 7 :=
  c5_partial_failure_isolated llmC5 loadsC5 agentBlank "hi"
    "give_motivation" "create_meal_plan" "boom" "fine" "needs support and food" "none"
    (giveMotivation llmC5 agentBlank) (createMealPlan llmC5 agentBlank)
    rfl rfl rfl rfl rfl

/-- C6 counterexample: on a response with trailing text containing an
extra closing brace after the first balanced object, what the code
extracts (first `{` to LAST `}`) differs from the spec's first balanced
span — the trailing `}` DOES change what is parsed. -/
theorem c6_counterexample :
    extractJsonSpan "\x7b\"tools\": []\x7d \x7d" ≠ specFirstBalancedSpan "\x7b\"tools\": []\x7d \x7d" ∧
    specFirstBalancedSpan "\x7b\"tools\": []\x7d \x7d" = some "\x7b\"tools\": []\x7d" ∧
    extractJsonSpan "\x7b\"tools\": []\x7d \x7d" = some "\x7b\"tools\": []\x7d \x7d" := by
  refine ⟨by decide, by decide, rfl⟩

/-- C6 (amended): the substring the Coordinator extracts runs from the
FIRST opening brace to the LAST closing brace of the whole response
(`find`/`rfind`), not to the matching brace: for any response of shape
`a ++ "{" ++ m ++ "}" ++ b` with no `{` in `a` and no `}` in `b`, the
extracted span is exactly `"{" ++ m ++ "}"`, regardless of braces
inside `m`. -/
theorem c6_first_to_last_brace (a m b : String)
    (ha : '\x7b' ∉ a.data) (hb : '\x7d' ∉ b.data) :
    extractJsonSpan (a ++ "\x7b" ++ m ++ "\x7d" ++ b) = some ("\x7b" ++ m ++ "\x7d") := by
  have hlb : ("\x7b" : String).data = ['\x7b'] := rfl
  have hrb : ("\x7d" : String).data = ['\x7d'] := rfl
  have hdata : (a ++ "\x7b" ++ m ++ "\x7d" ++ b).data
      = a.data ++ ('\x7b' :: (m.data ++ ('\x7d' :: b.data))) := by
    simp [String.data_append, hlb, hrb]
  unfold extractJsonSpan
  rw [hdata]
  have hfind : findChar (a.data ++ ('\x7b' :: (m.data ++ ('\x7d' :: b.data)))) '\x7b'
      = some a.data.length := by
    rw [findChar_append_of_not_mem _ _ _ ha]
    simp [findChar]
  have hbnone := rfindChar_eq_none_of_not_mem b.data '\x7d' hb
  have hrfind : rfindChar (a.data ++ ('\x7b' :: (m.data ++ ('\x7d' :: b.data)))) '\x7d'
      = some (a.data.length + (m.data.length + 1)) := by
    rw [rfindChar_append]
    have hmid : rfindChar (m.data ++ ('\x7d' :: b.data)) '\x7d' = some m.data.length := by
      rw [rfindChar_append]
      simp [rfindChar, hbnone]
    have hin : rfindChar ('\x7b' :: (m.data ++ ('\x7d' :: b.data))) '\x7d'
        = some (m.data.length + 1) := by
      simp [rfindChar, hmid]
    rw [hin]
  rw [hfind, hrfind]
  show (if a.data.length ≤ a.data.length + (m.data.length + 1) then _ else _) = _
  rw [if_pos (Nat.le_add_right _ _)]
  congr 1
  apply String.ext
  show ((a.data ++ ('\x7b' :: (m.data ++ ('\x7d' :: b.data)))).drop a.data.length).take
      (a.data.length + (m.data.length + 1) + 1 - a.data.length) = _
  rw [List.drop_left]
  have harith : a.data.length + (m.data.length + 1) + 1 - a.data.length = m.data.length + 2 := by
    omega
  rw [harith]
  rw [List.take_succ_cons]
  rw [List.append_cons m.data '\x7d' b.data]
  rw [List.take_left' (by simp)]
  simp [String.data_append, hlb, hrb]

/-- Witness for `c6_first_to_last_brace`: the span swallows a brace
inside the object text and stops only at the last `}` of the response. -/
theorem c6_witness :
    extractJsonSpan ("noise " ++ "\x7b" ++ "\"tools\": [1\x7d 2" ++ "\x7d" ++ " tail")
      = some ("\x7b" ++ "\"tools\": [1\x7d 2" ++ "\x7d") :=
  c6_first_to_last_brace "noise " "\"tools\": [1\x7d 2" " tail" (by decide) (by decide)

/-- C7 counterexample: the mining window is `history[-10:]` over
messages of ANY role, then filtered to user messages — NOT the last 10
user-authored messages.  Ten interleaved assistant messages push the
only user message ("i like running") out of the window, so the code
mines nothing, while mining over the last 10 user-authored messages
(the claim's reading) would find the like. -/
theorem c7_counterexample :
    mineWorkoutPrefs historyC7 = ([], []) ∧
    mineWorkoutPrefs (specLastUserMessages historyC7 10) = (["running"], []) := by
  constructor
  · decide
  · decide

/-- C7 (amended): each mining pass reads only the last `window` messages
of any role — 10 for workout preferences and the injury scan, 5 for
sentiment — so user messages pushed out of that any-role window are
ignored; only progress analysis reads the entire history, which ten
trailing assistant messages cannot hide (the two example histories agree
on their last 10 messages yet give different workout-mention counts). -/
theorem c7_any_role_window :
    (∀ h₁ h₂ : List Msg, pySliceLast h₁ 10 = pySliceLast h₂ 10 →
      mineWorkoutPrefs h₁ = mineWorkoutPrefs h₂ ∧ mineInjury h₁ = mineInjury h₂) ∧
    (∀ h₁ h₂ : List Msg, pySliceLast h₁ 5 = pySliceLast h₂ 5 →
      mineSentiment h₁ = mineSentiment h₂) ∧
    (pySliceLast historyC7b 10 = pySliceLast (List.replicate 10 assistantFiller) 10 ∧
      mineProgress historyC7b ≠ mineProgress (List.replicate 10 assistantFiller)) := by
  refine ⟨?_, ?_, ?_, ?_⟩
  · intro h₁ h₂ h
    unfold mineWorkoutPrefs mineInjury
    rw [h]
    exact ⟨rfl, rfl⟩
  · intro h₁ h₂ h
    unfold mineSentiment
    rw [h]
  · decide
  · decide

/-- Witness for `c7_any_role_window`: the two C7 histories share their
last-10 window, so all windowed signals agree. -/
theorem c7_witness :
    mineWorkoutPrefs historyC7 = mineWorkoutPrefs (List.replicate 10 assistantFiller) ∧
    mineInjury historyC7 = mineInjury (List.replicate 10 assistantFiller) :=
  c7_any_role_window.1 historyC7 (List.replicate 10 assistantFiller) (by decide)

/-- C8 counterexample: for height 5 ft the calorie instruction contains
"60.0" — a value computed locally by the core (`height_ft * 12`) — while
no raw profile field renders to a text containing "60.0", contradicting
the claim that the instruction embeds no value computed arithmetically
by the core from the profile fields. -/
theorem c8_counterexample :
    (calorieSystemPrompt ⟨profileWithHeight 5, []⟩).toOption.map
      (fun s => strContains s "60.0") = some true ∧
    (profileWithHeight 5).all (fun p => !(strContains (PyVal.render p.2) "60.0")) = true := by
  constructor
  · decide
  · decide

/-- C8 (amended): the calorie handler performs exactly one piece of
local arithmetic — the feet-to-inches conversion `height_ft * 12`,
rendered with one decimal into the instruction — and delegates every
other numeric derivation (BMR, TDEE, macro math) to the generation
capability: for every integer height `n` the instruction contains the
locally computed text `toString (n * 12) ++ ".0 inches)"`. -/
theorem c8_inches_computed_locally (n : Int) :
    (calorieSystemPrompt ⟨profileWithHeight n, []⟩).toOption.map
      (fun s => strContains s (toString (n * 12) ++ ".0 inches)")) = some true := by
  have h : calorieSystemPrompt ⟨profileWithHeight n, []⟩
      = Except.ok (caloriePromptPre ⟨profileWithHeight n, []⟩
          ++ ((toString (n * 12) ++ ".0")
            ++ (" inches)" ++ calorieRest ⟨profileWithHeight n, []⟩))) := rfl
  rw [h]
  show some (strContains _ _) = some true
  congr 1
  unfold strContains
  have hsplit : (".0 inches)" : String).data
      = (".0" : String).data ++ (" inches)" : String).data := rfl
  simp only [String.data_append, hsplit]
  have hmid := listContainsSub_middle (caloriePromptPre ⟨profileWithHeight n, []⟩).data
    ((toString (n * 12)).data ++ ((".0" : String).data ++ (" inches)" : String).data))
    (calorieRest ⟨profileWithHeight n, []⟩).data
  simpa [List.append_assoc] using hmid

/-- C10 (confirmed): the recent-history excerpt renders the last `n`
messages as `role: content` lines with each content truncated to its
first 100 characters (so content beyond 100 characters per message
never reaches the instructions); for an empty history it is exactly
"No previous conversation."; the coordination instruction embeds the
last-3 excerpt and the direct conversational instruction the last-5
excerpt. -/
theorem c10_context_excerpt (a : Agent) :
    (a.conversation_history = [] →
      getConversationContext a 3 = "No previous conversation." ∧
      getConversationContext a 5 = "No previous conversation.") ∧
    (a.conversation_history ≠ [] → ∀ n : Nat,
      getConversationContext a n = String.intercalate "\n"
        ((pySliceLast a.conversation_history n).map
          (fun m => Msg.getRole m ++ ": " ++ pyStrTake (Msg.getContent m) 100))) ∧
    (∀ m : Msg, (pyStrTake (Msg.getContent m) 100).length ≤ 100) ∧
    coordSystemPrompt a = coordPromptHead a ++ (getConversationContext a 3 ++ coordPromptTail) ∧
    directSystemPrompt a = directPromptHead a ++ (getConversationContext a 5 ++ directPromptTail) := by
  refine ⟨?_, ?_, ?_, rfl, rfl⟩
  · intro h
    unfold getConversationContext
    rw [if_pos h, if_pos h]
    exact ⟨rfl, rfl⟩
  · intro h n
    unfold getConversationContext
    rw [if_neg h]
  · intro m
    simp only [pyStrTake, String.length, List.length_take]
    omega

/-- Witness for `c10_context_excerpt` at the empty-history agent. -/
theorem c10_witness :
    getConversationContext agentBlank 3 = "No previous conversation." ∧
    getConversationContext agentBlank 5 = "No previous conversation." :=
  (c10_context_excerpt agentBlank).1 rfl
